import Mathlib

/-!
Verification of the bounded-concurrency generation-job orchestrator of the
NarraSync repository. Each Python function referenced by a claim is embedded
as an executable Lean definition; effects (network calls, file writes) are
abstracted as function parameters so that the control flow, counting and
data flow of the source are preserved exactly.
-/

/-! ## scene_management.rewrite_prompt_with_ai

The wrapper around `StoryAnalyzer.rewrite_prompt_for_sensitivity`: it calls
the analyzer inside a `try`; on any exception it falls back to returning the
original prompt with the suffix " (rewrite attempt {retry_count + 1} failed)".
The analyzer call is abstracted as a function returning `Except` (an
exception message, or the rewritten prompt). -/

def rewrite_prompt_with_ai (analyzer : String → Nat → Except String String)
    (original_prompt : String) (retry_count : Nat) : String :=
  match analyzer original_prompt retry_count with
  | .ok rewritten => rewritten
  | .error _ =>
      original_prompt ++ " (rewrite attempt " ++ toString (retry_count + 1) ++ " failed)"

/-! ## scene_management.regenerate_scene_image_with_retry

The retry controller. `gen n p` abstracts the `n`-th call (0-based) of
`regenerate_scene_image_async` with scene prompt `p`: `some file` models a
`(200, msg, file)` return, `none` models any non-200 return. `rw` abstracts
`rewrite_prompt_with_ai`. The source makes an initial attempt with the
original prompt; then, while the status is not 200 and `retry_count <
max_retries`, it increments `retry_count`, computes `new_prompt =
rewrite(current_prompt, retry_count)`, stores it in the scene, retries, and
sets `current_prompt = new_prompt`. After exhausting retries it restores the
scene prompt to the original and returns status 500. -/

structure RegenResult where
  status : Nat
  imageFile : Option String
  retryCount : Nat
  promptsCalled : List String
  finalScenePrompt : String
deriving Repr, DecidableEq

def regen_retry_loop (gen : Nat → String → Option String) (rw : String → Nat → String)
    (originalPrompt : String) :
    Nat → Nat → String → List String → RegenResult
  | 0, retryCount, _currentPrompt, called =>
      { status := 500, imageFile := none, retryCount := retryCount - 1,
        promptsCalled := called, finalScenePrompt := originalPrompt }
  | remaining + 1, retryCount, currentPrompt, called =>
      let newPrompt := rw currentPrompt retryCount
      match gen called.length newPrompt with
      | some f =>
          { status := 200, imageFile := some f, retryCount := retryCount,
            promptsCalled := called ++ [newPrompt], finalScenePrompt := newPrompt }
      | none =>
          regen_retry_loop gen rw originalPrompt remaining (retryCount + 1) newPrompt
            (called ++ [newPrompt])

def regenerate_scene_image_with_retry (gen : Nat → String → Option String)
    (rw : String → Nat → String) (maxRetries : Nat) (originalPrompt : String) : RegenResult :=
  match gen 0 originalPrompt with
  | some f =>
      { status := 200, imageFile := some f, retryCount := 0,
        promptsCalled := [originalPrompt], finalScenePrompt := originalPrompt }
  | none => regen_retry_loop gen rw originalPrompt maxRetries 1 originalPrompt [originalPrompt]

/-! ## midjourney_generator.MidjourneyGenerator

Status values reported by `check_task_status`: "SUCCESS", "FAILURE",
"ERROR" (synthesized locally on request errors) and anything else
(pending / in progress). -/

inductive MJStatus where
  | success
  | failure
  | error
  | pending
deriving Repr, DecidableEq

structure StatusResult where
  status : MJStatus
  imageUrl : Option String
  failReason : Option String
deriving Repr, DecidableEq

def mj_terminal (s : MJStatus) : Bool :=
  match s with
  | .success => true
  | .failure => true
  | .error => false
  | .pending => false

/-- The poll loop of `wait_for_task_completion_async`: `for i in range(max_retries)`,
check status; return the status result on SUCCESS or FAILURE; on ERROR or any
other status, continue to the next iteration (after a sleep, irrelevant here).
After the loop, return None (timeout). `check i` abstracts `check_task_status`
at the i-th iteration; the second component of the result counts the status
checks performed. Arguments: fuel (iterations left) and the current iteration
index. -/
def wait_poll_loop (check : Nat → StatusResult) : Nat → Nat → Option StatusResult × Nat
  | 0, done => (none, done)
  | fuel + 1, done =>
      let r := check done
      match r.status with
      | .success => (some r, done + 1)
      | .failure => (some r, done + 1)
      | .error => wait_poll_loop check fuel (done + 1)
      | .pending => wait_poll_loop check fuel (done + 1)

def wait_for_task_completion_async (check : Nat → StatusResult) (max_retries : Nat) :
    Option StatusResult × Nat :=
  wait_poll_loop check max_retries 0

/-- Models Python's `random.randint a b`: a uniformly chosen integer in the
inclusive range `[a, b]`, driven here by an injected `seed`. -/
def randint (a b seed : Nat) : Nat :=
  a + seed % (b - a + 1)

/-- Abstraction of the Midjourney HTTP API as used by `generate_image_async`:
`submitImagine p` returns the initial task id (or `none` on submission
failure); `statusOf tid i` is the status of task `tid` at its i-th poll;
`submitUpscale tid idx` returns the `(code, result)` pair of
`submit_upscale_task` (code 1, 21 or 22 means accepted, `result` is the
upscale task id); `download url` tells whether `download_image` succeeded. -/
structure MJBackend where
  submitImagine : String → Option String
  statusOf : String → Nat → StatusResult
  submitUpscale : String → Nat → Nat × Option String
  download : String → Bool

structure MJAttemptResult where
  artifact : Option String
  upscaleSubmits : List (String × Nat)
  initialResult : Option StatusResult
  finalResult : Option StatusResult
  downloadedUrl : Option String
deriving Repr, DecidableEq

/-- One iteration of the attempt loop in `generate_image_async`: submit the
initial task; wait for it; on SUCCESS pick `upscale_index = random.randint(1, 4)`,
submit exactly one upscale task; if accepted (code 1, 21 or 22) and a task id
came back, wait for the upscale task; on its SUCCESS download its `imageUrl`
to `savePath`. Every other branch fails the attempt (artifact `none`). -/
def generate_image_attempt (b : MJBackend) (prompt savePath : String)
    (seed maxPolls : Nat) : MJAttemptResult :=
  match b.submitImagine prompt with
  | none => { artifact := none, upscaleSubmits := [], initialResult := none,
              finalResult := none, downloadedUrl := none }
  | some tid =>
    let initial := (wait_for_task_completion_async (b.statusOf tid) maxPolls).1
    match initial with
    | none => { artifact := none, upscaleSubmits := [], initialResult := none,
                finalResult := none, downloadedUrl := none }
    | some ir =>
      if ir.status = .success then
        let idx := randint 1 4 seed
        let sub := b.submitUpscale tid idx
        if sub.1 = 1 ∨ sub.1 = 21 ∨ sub.1 = 22 then
          match sub.2 with
          | none => { artifact := none, upscaleSubmits := [(tid, idx)],
                      initialResult := some ir, finalResult := none, downloadedUrl := none }
          | some utid =>
            let final := (wait_for_task_completion_async (b.statusOf utid) maxPolls).1
            match final with
            | none => { artifact := none, upscaleSubmits := [(tid, idx)],
                        initialResult := some ir, finalResult := none, downloadedUrl := none }
            | some fr =>
              if fr.status = .success then
                match fr.imageUrl with
                | none => { artifact := none, upscaleSubmits := [(tid, idx)],
                            initialResult := some ir, finalResult := some fr,
                            downloadedUrl := none }
                | some url =>
                  if b.download url then
                    { artifact := some savePath, upscaleSubmits := [(tid, idx)],
                      initialResult := some ir, finalResult := some fr,
                      downloadedUrl := some url }
                  else
                    { artifact := none, upscaleSubmits := [(tid, idx)],
                      initialResult := some ir, finalResult := some fr,
                      downloadedUrl := some url }
              else
                { artifact := none, upscaleSubmits := [(tid, idx)],
                  initialResult := some ir, finalResult := some fr, downloadedUrl := none }
        else
          { artifact := none, upscaleSubmits := [(tid, idx)],
            initialResult := some ir, finalResult := none, downloadedUrl := none }
      else
        { artifact := none, upscaleSubmits := [], initialResult := some ir,
          finalResult := none, downloadedUrl := none }

/-- The attempt loop of `generate_image_async`: `for attempt in range(max_retries)`,
run one attempt; return the artifact path on success, otherwise try again;
after the last attempt return `none`. `seeds k` drives the random upscale
index of the k-th attempt. -/
def generate_image_async_go (b : MJBackend) (prompt savePath : String)
    (maxPolls : Nat) (seeds : Nat → Nat) : Nat → Nat → Option String
  | 0, _ => none
  | n + 1, k =>
      match (generate_image_attempt b prompt savePath (seeds k) maxPolls).artifact with
      | some p => some p
      | none => generate_image_async_go b prompt savePath maxPolls seeds n (k + 1)

def generate_image_async (b : MJBackend) (prompt savePath : String)
    (maxRetries maxPolls : Nat) (seeds : Nat → Nat) : Option String :=
  generate_image_async_go b prompt savePath maxPolls seeds maxRetries 0

/-! ## full_process.generate_single_image_task

The per-scene body of the Midjourney branch of `generate_images_concurrently`:
call `generate_image_async` with the scene's prompt; if it returned no file,
call `rewrite_prompt_with_ai(original_prompt, 0)` and call
`generate_image_async` once more with the rewritten prompt; report success or
failure. `genAsync` abstracts `generator.generate_image_async` (with style
suffixes empty) and `rw` abstracts `rewrite_prompt_with_ai`. -/

structure SingleTaskOutcome where
  success : Bool
  rewriteCalled : Bool
  promptsTried : List String
deriving Repr, DecidableEq

def generate_single_image_task (genAsync : String → Option String)
    (rw : String → Nat → String) (originalPrompt : String) : SingleTaskOutcome :=
  match genAsync originalPrompt with
  | some _ => { success := true, rewriteCalled := false, promptsTried := [originalPrompt] }
  | none =>
    let newPrompt := rw originalPrompt 0
    match genAsync newPrompt with
    | some _ =>
        { success := true, rewriteCalled := true, promptsTried := [originalPrompt, newPrompt] }
    | none =>
        { success := false, rewriteCalled := true, promptsTried := [originalPrompt, newPrompt] }

/-! ## asyncio.Semaphore as used by the worker pools

Both `full_process.generate_images_concurrently` (`asyncio.Semaphore(mj_concurrency)`)
and `test_voice_generator.process_voice_generation`
(`asyncio.Semaphore(MAX_CONCURRENT_REQUESTS)`) wrap every job body in
`async with semaphore`. The semaphore holds an internal counter initialised
to the limit; `acquire` suspends until the counter is positive and then
decrements it; `release` (on scope exit, every exit path) increments it.
`inFlight` counts job bodies between acquire and release; only an admitted
job can release, which is what scoped acquisition guarantees. -/

structure SemState where
  value : Nat
  inFlight : Nat
deriving Repr, DecidableEq

inductive SemStep : SemState → SemState → Prop where
  | acquire (s : SemState) (h : 0 < s.value) :
      SemStep s { value := s.value - 1, inFlight := s.inFlight + 1 }
  | release (s : SemState) (h : 0 < s.inFlight) :
      SemStep s { value := s.value + 1, inFlight := s.inFlight - 1 }

def SemReachable (limit : Nat) (s : SemState) : Prop :=
  Relation.ReflTransGen SemStep { value := limit, inFlight := 0 } s

/-! ## full_process.generate_images_concurrently: result aggregation

Tasks are created in input order (`enumerate(key_scenes)`); each task returns
a dict carrying its `index`; after `asyncio.gather` the results are placed
back with `processed_scenes[idx] = ...`, so the final list position depends
only on the recorded index, never on completion order. `job_outcomes` is the
canonical outcome list (job `i` computes `body i inputs[i]`); the aggregator
is run on an arbitrary permutation of it, modelling arbitrary completion
order. -/

def aggregate_results {β : Type} (n : Nat) (results : List (Nat × β)) : List (Option β) :=
  results.foldl (fun acc r => acc.set r.1 (some r.2)) (List.replicate n none)

def job_outcomes {α β : Type} (inputs : List α) (body : Nat → α → β) : List (Nat × β) :=
  List.ofFn (fun i : Fin inputs.length => (i.1, body i.1 (inputs.get i)))

/-! ## test_voice_generator.process_voice_generation

Each sentence gets a task `synthesize_sentence_task(index, sentence, ...)`
which runs the synchronous `synthesize` in a thread inside a `try`: on
success it returns a dict with id/sentence/audio_file/duration, on any
exception a dict with id/sentence/error. `asyncio.gather` returns the task
results in task (input) order and the aggregation loop appends them in that
order. `synth i s` abstracts the `synthesize` call: `Except.error e` models
an exception with message `e`, `Except.ok d` a returned duration. -/

inductive AudioRecord where
  | ok (id : Nat) (sentence : String) (audioFile : String) (duration : Nat)
  | err (id : Nat) (sentence : String) (msg : String)
deriving Repr, DecidableEq

def pad3 (n : Nat) : String :=
  if n < 10 then "00" ++ toString n
  else if n < 100 then "0" ++ toString n
  else toString n

def audio_filename (i : Nat) : String :=
  "audio_" ++ pad3 i ++ ".wav"

def synthesize_sentence_task (synth : Nat → String → Except String Nat)
    (index : Nat) (sentence : String) : AudioRecord :=
  match synth index sentence with
  | .ok duration => .ok index sentence (audio_filename index) duration
  | .error e => .err index sentence e

def map_with_index_from {α β : Type} (f : Nat → α → β) : Nat → List α → List β
  | _, [] => []
  | i, x :: xs => f i x :: map_with_index_from f (i + 1) xs

def process_voice_generation (synth : Nat → String → Except String Nat)
    (sentences : List String) : List AudioRecord :=
  map_with_index_from (synthesize_sentence_task synth) 0 sentences

/-! ## voice_generator.VoiceVoxGenerator.batch_synthesize

The sequential batch loop: `for i, text in enumerate(texts)`, if
`not text.strip()` log a warning and `continue` (no record is appended and
the synthesizer is not called); otherwise call `synthesize` inside a `try`,
appending an ok record on success and an error record on exception.
`callsMade` records the texts actually passed to `synthesize`, in order. -/

structure BatchResult where
  audioFiles : List AudioRecord
  callsMade : List String
  successfulCount : Nat
deriving Repr, DecidableEq

/-- Python's blank test `not text.strip()`: stripping removes leading and
trailing whitespace, so the stripped string is empty exactly when every
character of the text is whitespace. -/
def strip_blank (t : String) : Bool :=
  t.data.all Char.isWhitespace

def batch_synthesize_go (synth : String → Except String Nat) : Nat → List String → BatchResult
  | _, [] => { audioFiles := [], callsMade := [], successfulCount := 0 }
  | i, text :: rest =>
      if strip_blank text then
        batch_synthesize_go synth (i + 1) rest
      else
        let r := batch_synthesize_go synth (i + 1) rest
        match synth text with
        | .ok duration =>
            { audioFiles := .ok i text (audio_filename i) duration :: r.audioFiles,
              callsMade := text :: r.callsMade,
              successfulCount := r.successfulCount + 1 }
        | .error e =>
            { audioFiles := .err i text e :: r.audioFiles,
              callsMade := text :: r.callsMade,
              successfulCount := r.successfulCount }

def batch_synthesize (synth : String → Except String Nat) (texts : List String) : BatchResult :=
  batch_synthesize_go synth 0 texts

/-! # Theorems -/

/-- C10: the rewrite hook wrapper is total from the caller's perspective:
whatever the analyzer does, `rewrite_prompt_with_ai` returns a `String`; if
the analyzer call raises, it returns the original prompt with the suffix
" (rewrite attempt {retry_count + 1} failed)" appended, otherwise the
analyzer's rewritten prompt. -/
theorem rewrite_prompt_with_ai_never_fails (analyzer : String → Nat → Except String String)
    (p : String) (rc : Nat) :
    (∀ e, analyzer p rc = .error e →
      rewrite_prompt_with_ai analyzer p rc =
        p ++ " (rewrite attempt " ++ toString (rc + 1) ++ " failed)")
    ∧ (∀ r, analyzer p rc = .ok r → rewrite_prompt_with_ai analyzer p rc = r) := by
  constructor
  · intro e he
    simp [rewrite_prompt_with_ai, he]
  · intro r hr
    simp [rewrite_prompt_with_ai, hr]

/-- Witness for C10 at a concrete always-raising analyzer. -/
theorem rewrite_prompt_with_ai_never_fails_witness :
    rewrite_prompt_with_ai (fun _ _ => .error "boom") "p" 1
      = "p" ++ " (rewrite attempt " ++ toString (1 + 1) ++ " failed)" :=
  (rewrite_prompt_with_ai_never_fails (fun _ _ => .error "boom") "p" 1).1 "boom" rfl

/-- Helper for C3: if the generator fails on every call, the retry loop makes
exactly `remaining` further calls, ends with status 500, no image file, and
restores the scene prompt to the original. -/
theorem regen_retry_loop_all_fail (gen : Nat → String → Option String)
    (rw : String → Nat → String) (orig : String)
    (hfail : ∀ n p, gen n p = none) :
    ∀ (remaining retryCount : Nat) (current : String) (called : List String),
      (regen_retry_loop gen rw orig remaining retryCount current called).status = 500
      ∧ (regen_retry_loop gen rw orig remaining retryCount current called).promptsCalled.length
          = called.length + remaining
      ∧ (regen_retry_loop gen rw orig remaining retryCount current called).finalScenePrompt = orig
      ∧ (regen_retry_loop gen rw orig remaining retryCount current called).imageFile = none := by
  intro remaining
  induction remaining with
  | zero =>
    intro retryCount current called
    simp [regen_retry_loop]
  | succ n ih =>
    intro retryCount current called
    have h := ih (retryCount + 1) (rw current retryCount) (called ++ [rw current retryCount])
    simp only [regen_retry_loop, hfail] at *
    refine ⟨h.1, ?_, h.2.2.1, h.2.2.2⟩
    rw [h.2.1]
    simp
    omega

/-- C3: a job whose generator fails on every attempt exhausts the retry
controller: exactly `max_retries + 1` generator calls are made, the final
outcome is a failure (status 500, no image), and the scene prompt handed
back is the original attempt-0 prompt, not a rewritten one. -/
theorem regen_retry_exhausts_and_restores (gen : Nat → String → Option String)
    (rw : String → Nat → String) (maxRetries : Nat) (orig : String)
    (hfail : ∀ n p, gen n p = none) :
    (regenerate_scene_image_with_retry gen rw maxRetries orig).promptsCalled.length
        = maxRetries + 1
    ∧ (regenerate_scene_image_with_retry gen rw maxRetries orig).status = 500
    ∧ (regenerate_scene_image_with_retry gen rw maxRetries orig).finalScenePrompt = orig
    ∧ (regenerate_scene_image_with_retry gen rw maxRetries orig).imageFile = none := by
  have h := regen_retry_loop_all_fail gen rw orig hfail maxRetries 1 orig [orig]
  simp only [regenerate_scene_image_with_retry, hfail]
  refine ⟨?_, h.1, h.2.2.1, h.2.2.2⟩
  rw [h.2.1]
  simp
  omega

/-- Witness for C3 at a concrete always-failing generator with 3 retries. -/
theorem regen_retry_exhausts_and_restores_witness :
    (regenerate_scene_image_with_retry (fun _ _ => none) (fun p _ => p) 3 "p").promptsCalled.length
        = 3 + 1
    ∧ (regenerate_scene_image_with_retry (fun _ _ => none) (fun p _ => p) 3 "p").status = 500
    ∧ (regenerate_scene_image_with_retry (fun _ _ => none) (fun p _ => p) 3 "p").finalScenePrompt
        = "p"
    ∧ (regenerate_scene_image_with_retry (fun _ _ => none) (fun p _ => p) 3 "p").imageFile
        = none :=
  regen_retry_exhausts_and_restores (fun _ _ => none) (fun p _ => p) 3 "p" (fun _ _ => rfl)

/-- Generator for the C6 counterexample: the artifact reported on a
successful call is the prompt that was used, and only the third call
(call number 2, i.e. attempt 2) succeeds. -/
def c6_gen (n : Nat) (p : String) : Option String :=
  if n = 2 then some p else none

/-- Rewrite hook for the C6 counterexample: appends "#" and the attempt
number, so distinct rewrite histories give distinct prompts. -/
def c6_rw (p : String) (n : Nat) : String :=
  p ++ "#" ++ toString n

/-- C6 counterexample: with `max_retries = 2`, a generator failing on
attempts 0 and 1 and succeeding on attempt 2, the retry controller's
successful artifact corresponds to `rewrite(rewrite(original, 1), 2)` — the
rewrite hook was applied to the previously rewritten prompt — and not to
`rewrite(original, 2)` as the claim states. -/
theorem regen_rewrite_not_from_original :
    (regenerate_scene_image_with_retry c6_gen c6_rw 2 "p").status = 200
    ∧ (regenerate_scene_image_with_retry c6_gen c6_rw 2 "p").imageFile
        = some (c6_rw (c6_rw "p" 1) 2)
    ∧ ¬ ((regenerate_scene_image_with_retry c6_gen c6_rw 2 "p").imageFile
        = some (c6_rw "p" 2)) := by
  refine ⟨rfl, rfl, ?_⟩
  decide

/-- C6 amended: on each policy-retry of attempt `n` the controller computes
the new prompt by applying the rewrite hook to the *previous* (already
rewritten) prompt, `rewrite(previous, n)`; hence a job failing on attempts 0
and 1 and succeeding on attempt 2 (with `max_retries ≥ 2`) ends with status
200 and the artifact for `rewrite(rewrite(original, 1), 2)`. -/
theorem regen_rewrite_applies_to_previous (gen : Nat → String → Option String)
    (rw : String → Nat → String) (orig : String) (m : Nat)
    (h0 : ∀ p, gen 0 p = none) (h1 : ∀ p, gen 1 p = none)
    (h2 : ∀ p, gen 2 p = some p) :
    (regenerate_scene_image_with_retry gen rw (m + 2) orig).status = 200
    ∧ (regenerate_scene_image_with_retry gen rw (m + 2) orig).imageFile
        = some (rw (rw orig 1) 2) := by
  show (regenerate_scene_image_with_retry gen rw (Nat.succ (Nat.succ m)) orig).status = 200
    ∧ (regenerate_scene_image_with_retry gen rw (Nat.succ (Nat.succ m)) orig).imageFile
        = some (rw (rw orig 1) 2)
  simp only [regenerate_scene_image_with_retry, h0, regen_retry_loop,
    List.length_cons, List.length_nil, List.length_append, h1, h2]
  simp

/-- Witness for the amended C6 at the concrete counterexample generator. -/
theorem regen_rewrite_applies_to_previous_witness :
    (regenerate_scene_image_with_retry c6_gen c6_rw (0 + 2) "p").status = 200
    ∧ (regenerate_scene_image_with_retry c6_gen c6_rw (0 + 2) "p").imageFile
        = some (c6_rw (c6_rw "p" 1) 2) :=
  regen_rewrite_applies_to_previous c6_gen c6_rw "p" 0
    (fun _ => rfl) (fun _ => rfl) (fun _ => rfl)

/-- Backend for the C4 counterexample: submission succeeds but every status
poll reports a non-terminal (pending) status, so every poll loop exhausts its
bound — the pure Timeout failure of the two-phase state machine. -/
def c4_backend : MJBackend :=
  { submitImagine := fun _ => some "t1",
    statusOf := fun _ _ => { status := .pending, imageUrl := none, failReason := none },
    submitUpscale := fun _ _ => (1, some "u1"),
    download := fun _ => true }

/-- C4 counterexample: against a backend whose poll loop always times out
(first conjunct: the poll loop returns `none` after its 30-poll bound), the
scene task of `generate_images_concurrently` still invokes the rewrite hook
and resubmits the job — the code does not exempt Timeout failures from the
rewrite-retry path (C4 as stated is false of the code). -/
theorem timeout_is_passed_to_rewrite :
    wait_for_task_completion_async (c4_backend.statusOf "t1") 30 = (none, 30)
    ∧ (generate_single_image_task
        (fun p => generate_image_async c4_backend p "out.png" 3 30 (fun _ => 0))
        (fun p _ => p ++ " rewritten") "orig").rewriteCalled = true := by
  constructor
  · decide
  · decide

/-- C4 amended: the task body does not discriminate failure kinds at all —
the rewrite hook is invoked exactly when the first `generate_image_async`
call fails, whatever the cause (timeout included). -/
theorem rewrite_called_iff_first_call_fails (genAsync : String → Option String)
    (rw : String → Nat → String) (orig : String) :
    (generate_single_image_task genAsync rw orig).rewriteCalled = true ↔ genAsync orig = none := by
  unfold generate_single_image_task
  cases h : genAsync orig with
  | none =>
    cases h2 : genAsync (rw orig 0) <;> simp [h2]
  | some v => simp

/-- Witness for the amended C4 at a concrete always-failing generator. -/
theorem rewrite_called_iff_first_call_fails_witness :
    (generate_single_image_task (fun _ => none) (fun p _ => p) "x").rewriteCalled = true :=
  (rewrite_called_iff_first_call_fails (fun _ => none) (fun p _ => p) "x").mpr rfl

/-- Helper for C7: the poll loop performs at most `fuel` further checks. -/
theorem wait_poll_loop_count_le (check : Nat → StatusResult) :
    ∀ fuel start, (wait_poll_loop check fuel start).2 ≤ start + fuel := by
  intro fuel
  induction fuel with
  | zero =>
    intro start
    simp [wait_poll_loop]
  | succ n ih =>
    intro start
    cases hs : (check start).status <;>
      simp only [wait_poll_loop, hs] <;>
      first
        | omega
        | · have := ih (start + 1)
            omega

/-- Helper for C7: a status result returned by the poll loop is terminal. -/
theorem wait_poll_loop_some_terminal (check : Nat → StatusResult) :
    ∀ fuel start r, (wait_poll_loop check fuel start).1 = some r →
      mj_terminal r.status = true := by
  intro fuel
  induction fuel with
  | zero =>
    intro start r h
    simp [wait_poll_loop] at h
  | succ n ih =>
    intro start r h
    cases hs : (check start).status <;> simp only [wait_poll_loop, hs] at h
    · obtain rfl : check start = r := by
        simpa using h
      simp [mj_terminal, hs]
    · obtain rfl : check start = r := by
        simpa using h
      simp [mj_terminal, hs]
    · exact ih (start + 1) r h
    · exact ih (start + 1) r h

/-- Helper for C7: if no check within the bound reports a terminal status,
the poll loop exhausts its bound and reports a timeout (`none`). -/
theorem wait_poll_loop_none_of_no_terminal (check : Nat → StatusResult) :
    ∀ fuel start,
      (∀ k, start ≤ k → k < start + fuel → mj_terminal (check k).status = false) →
      wait_poll_loop check fuel start = (none, start + fuel) := by
  intro fuel
  induction fuel with
  | zero =>
    intro start _
    simp [wait_poll_loop]
  | succ n ih =>
    intro start hno
    have h0 : mj_terminal (check start).status = false := hno start (le_refl _) (by omega)
    cases hs : (check start).status <;> simp only [wait_poll_loop, hs]
    · rw [hs] at h0
      simp [mj_terminal] at h0
    · rw [hs] at h0
      simp [mj_terminal] at h0
    · rw [ih (start + 1) (fun k hk1 hk2 => hno k (by omega) (by omega))]
      simp only [Prod.mk.injEq]
      exact ⟨by simp, by omega⟩
    · rw [ih (start + 1) (fun k hk1 hk2 => hno k (by omega) (by omega))]
      simp only [Prod.mk.injEq]
      exact ⟨by simp, by omega⟩

/-- Helper for C7: the poll loop returns the backend's status object the
instant the first terminal status is reported, after `k + 1` checks. -/
theorem wait_poll_loop_first_terminal (check : Nat → StatusResult) :
    ∀ fuel start k, start ≤ k → k < start + fuel →
      mj_terminal (check k).status = true →
      (∀ j, start ≤ j → j < k → mj_terminal (check j).status = false) →
      wait_poll_loop check fuel start = (some (check k), k + 1) := by
  intro fuel
  induction fuel with
  | zero =>
    intro start k h1 h2
    omega
  | succ n ih =>
    intro start k h1 h2 hterm hfirst
    rcases Nat.eq_or_lt_of_le h1 with rfl | hlt
    · cases hs : (check start).status <;> simp only [wait_poll_loop, hs] <;>
        first
          | rfl
          | (rw [hs] at hterm; simp [mj_terminal] at hterm)
    · have h0 : mj_terminal (check start).status = false :=
        hfirst start (le_refl _) hlt
      cases hs : (check start).status <;> simp only [wait_poll_loop, hs]
      · rw [hs] at h0
        simp [mj_terminal] at h0
      · rw [hs] at h0
        simp [mj_terminal] at h0
      · exact ih (start + 1) k (by omega) (by omega) hterm
          (fun j hj1 hj2 => hfirst j (by omega) hj2)
      · exact ih (start + 1) k (by omega) (by omega) hterm
          (fun j hj1 hj2 => hfirst j (by omega) hj2)

/-- C7: the two-phase poll loop always terminates within its bound: it
performs at most `max_retries` status checks; any status object it returns is
terminal (SUCCESS or FAILURE); it returns the backend's status object the
instant the first terminal status is reported; and if the backend never
reports a terminal status within the bound it returns the timed-out outcome
(`none`) after exactly `max_retries` checks. -/
theorem wait_for_task_completion_terminates (check : Nat → StatusResult) (max_retries : Nat) :
    (wait_for_task_completion_async check max_retries).2 ≤ max_retries
    ∧ (∀ r, (wait_for_task_completion_async check max_retries).1 = some r →
        mj_terminal r.status = true)
    ∧ ((∀ k, k < max_retries → mj_terminal (check k).status = false) →
        wait_for_task_completion_async check max_retries = (none, max_retries))
    ∧ (∀ k, k < max_retries → mj_terminal (check k).status = true →
        (∀ j, j < k → mj_terminal (check j).status = false) →
        wait_for_task_completion_async check max_retries = (some (check k), k + 1)) := by
  refine ⟨?_, ?_, ?_, ?_⟩
  · have := wait_poll_loop_count_le check max_retries 0
    simpa [wait_for_task_completion_async] using this
  · intro r h
    exact wait_poll_loop_some_terminal check max_retries 0 r h
  · intro hno
    have := wait_poll_loop_none_of_no_terminal check max_retries 0
      (fun k _ hk => hno k (by omega))
    simpa [wait_for_task_completion_async] using this
  · intro k hk hterm hfirst
    exact wait_poll_loop_first_terminal check max_retries 0 k (Nat.zero_le _) (by omega)
      hterm (fun j _ hj => hfirst j hj)

/-- Witness for C7 at a backend that never reaches a terminal status. -/
theorem wait_for_task_completion_terminates_witness :
    wait_for_task_completion_async
      (fun _ => { status := .pending, imageUrl := none, failReason := none }) 3 = (none, 3) :=
  (wait_for_task_completion_terminates
      (fun _ => { status := .pending, imageUrl := none, failReason := none }) 3).2.2.1
    (fun _ _ => rfl)

/-- C8: within one generation attempt, if the Initial phase reaches SUCCESS
then exactly one upscale (Dependent) request is submitted, its candidate
index `random.randint(1, 4)` lies in {1, 2, 3, 4}, and whatever artifact the
attempt delivers was downloaded from the URL carried by the Dependent
phase's terminal SUCCESS result — never from the Initial phase's grid. -/
theorem two_phase_chaining (b : MJBackend) (prompt savePath : String) (seed maxPolls : Nat)
    (tid : String) (hsubmit : b.submitImagine prompt = some tid)
    (ir : StatusResult)
    (hwait : (wait_for_task_completion_async (b.statusOf tid) maxPolls).1 = some ir)
    (hsucc : ir.status = .success) :
    (generate_image_attempt b prompt savePath seed maxPolls).upscaleSubmits
        = [(tid, randint 1 4 seed)]
    ∧ 1 ≤ randint 1 4 seed ∧ randint 1 4 seed ≤ 4
    ∧ (∀ a, (generate_image_attempt b prompt savePath seed maxPolls).artifact = some a →
        ∃ fr, (generate_image_attempt b prompt savePath seed maxPolls).finalResult = some fr
          ∧ fr.status = .success
          ∧ ∃ u, fr.imageUrl = some u
            ∧ (generate_image_attempt b prompt savePath seed maxPolls).downloadedUrl = some u) := by
  have hb : 1 ≤ randint 1 4 seed ∧ randint 1 4 seed ≤ 4 := by
    unfold randint
    have := Nat.mod_lt seed (show 0 < 4 - 1 + 1 by omega)
    omega
  unfold generate_image_attempt
  rw [hsubmit]
  simp only [hwait, hsucc, if_true]
  refine ⟨?_, hb.1, hb.2, ?_⟩
  · repeat' split
    all_goals rfl
  · intro a
    repeat' split
    all_goals intro ha
    all_goals first
      | exact ⟨_, rfl, by assumption, _, by assumption, rfl⟩
      | simp at ha

/-- Backend for the C8 witness: both phases succeed, the initial grid and the
upscaled image carry distinct URLs. -/
def c8_backend : MJBackend :=
  { submitImagine := fun _ => some "t",
    statusOf := fun tid _ =>
      if tid = "t" then { status := .success, imageUrl := some "grid", failReason := none }
      else { status := .success, imageUrl := some "final", failReason := none },
    submitUpscale := fun _ _ => (1, some "u"),
    download := fun _ => true }

/-- Witness for C8 at the concrete fully-succeeding backend. -/
theorem two_phase_chaining_witness :
    (generate_image_attempt c8_backend "p" "s.png" 0 5).upscaleSubmits
        = [("t", randint 1 4 0)]
    ∧ 1 ≤ randint 1 4 0 ∧ randint 1 4 0 ≤ 4 := by
  have h := two_phase_chaining c8_backend "p" "s.png" 0 5 "t" rfl
      { status := .success, imageUrl := some "grid", failReason := none } (by decide) rfl
  exact ⟨h.1, h.2.1, h.2.2.1⟩

/-- Helper for C2: in every reachable semaphore state, the counter and the
number of in-flight job bodies sum to the configured limit. -/
theorem sem_reachable_invariant (limit : Nat) (s : SemState)
    (h : SemReachable limit s) : s.value + s.inFlight = limit := by
  induction h with
  | refl => rfl
  | tail hab hbc ih =>
    cases hbc with
    | acquire ht => simp only []; omega
    | release ht => simp only []; omega

/-- C2: for every reachable state of the worker-pool semaphore, the number of
job bodies admitted and not yet released never exceeds the configured
concurrency limit. -/
theorem semaphore_in_flight_le_limit (limit : Nat) (s : SemState)
    (h : SemReachable limit s) : s.inFlight ≤ limit := by
  have := sem_reachable_invariant limit s h
  omega

/-- Witness for C2: with limit 3, the state reached after two admissions is
reachable and holds at most 3 in-flight jobs. -/
theorem semaphore_in_flight_le_limit_witness :
    SemReachable 3 { value := 1, inFlight := 2 }
    ∧ ({ value := 1, inFlight := 2 } : SemState).inFlight ≤ 3 := by
  have s1 : SemStep { value := 3, inFlight := 0 } { value := 2, inFlight := 1 } :=
    SemStep.acquire { value := 3, inFlight := 0 } (by decide)
  have s2 : SemStep { value := 2, inFlight := 1 } { value := 1, inFlight := 2 } :=
    SemStep.acquire { value := 2, inFlight := 1 } (by decide)
  have hr : SemReachable 3 { value := 1, inFlight := 2 } :=
    Relation.ReflTransGen.tail (Relation.ReflTransGen.tail Relation.ReflTransGen.refl s1) s2
  exact ⟨hr, semaphore_in_flight_le_limit 3 _ hr⟩

/-- Helper for C1: index-keyed placement leaves slots of other keys alone. -/
theorem foldl_set_getElem?_of_not_key {β : Type} :
    ∀ (results : List (Nat × β)) (acc : List (Option β)) (i : Nat),
      (∀ p ∈ results, p.1 ≠ i) →
      (results.foldl (fun acc r => acc.set r.1 (some r.2)) acc)[i]? = acc[i]? := by
  intro results
  induction results with
  | nil =>
    intro acc i _
    rfl
  | cons hd tl ih =>
    intro acc i hne
    have h1 : (acc.set hd.1 (some hd.2))[i]? = acc[i]? :=
      List.getElem?_set_ne (hne hd (List.mem_cons_self hd tl))
    simp only [List.foldl_cons]
    rw [ih (acc.set hd.1 (some hd.2)) i (fun p hp => hne p (List.mem_cons_of_mem hd hp))]
    exact h1

/-- Helper for C1: index-keyed placement puts the outcome for key `i` into
slot `i`, provided every outcome recorded under key `i` is the same value. -/
theorem foldl_set_getElem?_of_key {β : Type} :
    ∀ (results : List (Nat × β)) (acc : List (Option β)) (i : Nat) (v : β),
      i < acc.length → (i, v) ∈ results →
      (∀ p ∈ results, p.1 = i → p.2 = v) →
      (results.foldl (fun acc r => acc.set r.1 (some r.2)) acc)[i]? = some (some v) := by
  intro results
  induction results with
  | nil =>
    intro acc i v _ hmem _
    simp at hmem
  | cons hd tl ih =>
    intro acc i v hlen hmem hval
    simp only [List.foldl_cons]
    by_cases htl : ∃ w, (i, w) ∈ tl
    · obtain ⟨w, hw⟩ := htl
      have hwv : w = v := hval (i, w) (List.mem_cons_of_mem hd hw) rfl
      subst hwv
      exact ih (acc.set hd.1 (some hd.2)) i w (by simpa using hlen) hw
        (fun p hp hpi => hval p (List.mem_cons_of_mem hd hp) hpi)
    · have hhd : hd = (i, v) := by
        rcases List.mem_cons.mp hmem with h | h
        · exact h.symm
        · exact absurd ⟨v, h⟩ htl
      subst hhd
      rw [foldl_set_getElem?_of_not_key tl (acc.set i (some v)) i
        (fun p hp => fun hpi => htl ⟨p.2, by rw [← hpi]; exact hp⟩)]
      exact List.getElem?_set_self hlen

/-- C1: the batch aggregator preserves input order. Jobs are created in input
order (`job_outcomes`), their results complete in an arbitrary order
(`completed` is any permutation), and index-keyed placement
(`processed_scenes[idx] = result`) puts the outcome of the job created from
`inputs[i]` into slot `i` of the final list, for every `i`. -/
theorem batch_results_preserve_input_order {α β : Type} (inputs : List α)
    (body : Nat → α → β) (completed : List (Nat × β))
    (hperm : completed.Perm (job_outcomes inputs body))
    (i : Nat) (hi : i < inputs.length) :
    (aggregate_results inputs.length completed)[i]? =
      some (some (body i (inputs.get ⟨i, hi⟩))) := by
  have hmem : (i, body i (inputs.get ⟨i, hi⟩)) ∈ job_outcomes inputs body := by
    rw [job_outcomes, List.mem_ofFn]
    exact ⟨⟨i, hi⟩, rfl⟩
  have hmem2 : (i, body i (inputs.get ⟨i, hi⟩)) ∈ completed := hperm.mem_iff.mpr hmem
  have hval : ∀ p ∈ completed, p.1 = i → p.2 = body i (inputs.get ⟨i, hi⟩) := by
    intro p hp hpi
    have hp2 : p ∈ job_outcomes inputs body := hperm.mem_iff.mp hp
    rw [job_outcomes, List.mem_ofFn] at hp2
    obtain ⟨j, hj⟩ := hp2
    have hj1 : j.1 = i := by
      rw [← hj] at hpi
      exact hpi
    have : j = ⟨i, hi⟩ := Fin.ext hj1
    subst this
    rw [← hj]
  exact foldl_set_getElem?_of_key completed (List.replicate inputs.length none) i
    (body i (inputs.get ⟨i, hi⟩)) (by simpa using hi) hmem2 hval

/-- Witness for C1: a 3-input batch whose jobs complete in reverse order
still aggregates in input order. -/
theorem batch_results_preserve_input_order_witness :
    (aggregate_results 3 (job_outcomes ["a", "b", "c"]
        (fun i s => s ++ toString i)).reverse)[1]? = some (some ("b" ++ toString 1)) := by
  have h := batch_results_preserve_input_order ["a", "b", "c"]
    (fun i s => s ++ toString i)
    (job_outcomes ["a", "b", "c"] (fun i s => s ++ toString i)).reverse
    (List.reverse_perm _) 1 (by decide)
  exact h

/-- Helper for C5: indexed mapping preserves length. -/
theorem map_with_index_from_length {α β : Type} (f : Nat → α → β) :
    ∀ (l : List α) (start : Nat), (map_with_index_from f start l).length = l.length := by
  intro l
  induction l with
  | nil => intro start; rfl
  | cons hd tl ih =>
    intro start
    simp [map_with_index_from, ih]

/-- Helper for C5: slot `i` of an indexed map is the image of element `i`. -/
theorem map_with_index_from_getElem? {α β : Type} (f : Nat → α → β) :
    ∀ (l : List α) (start i : Nat) (hi : i < l.length),
      (map_with_index_from f start l)[i]? = some (f (start + i) (l.get ⟨i, hi⟩)) := by
  intro l
  induction l with
  | nil =>
    intro start i hi
    simp at hi
  | cons hd tl ih =>
    intro start i hi
    cases i with
    | zero => simp [map_with_index_from]
    | succ j =>
      have hj : j < tl.length := by simpa using hi
      simp only [map_with_index_from, List.getElem?_cons_succ]
      rw [ih (start + 1) j hj]
      have : start + 1 + j = start + (j + 1) := by omega
      rw [this]
      rfl

/-- C5: the per-job boundary isolates faults. The batch always returns one
slot per sentence; slot `i` is exactly the record of job `i`, depending only
on job `i`'s own synthesis outcome; a job whose synthesis raises produces an
error record in its own slot (others are untouched by it), and the batch
never aborts. -/
theorem batch_fault_isolation (synth : Nat → String → Except String Nat)
    (sentences : List String) :
    (process_voice_generation synth sentences).length = sentences.length
    ∧ (∀ i (hi : i < sentences.length),
        (process_voice_generation synth sentences)[i]? =
          some (synthesize_sentence_task synth i (sentences.get ⟨i, hi⟩)))
    ∧ (∀ i (hi : i < sentences.length) (e : String),
        synth i (sentences.get ⟨i, hi⟩) = .error e →
        (process_voice_generation synth sentences)[i]? =
          some (.err i (sentences.get ⟨i, hi⟩) e)) := by
  refine ⟨map_with_index_from_length _ sentences 0, ?_, ?_⟩
  · intro i hi
    have h := map_with_index_from_getElem? (synthesize_sentence_task synth) sentences 0 i hi
    simpa using h
  · intro i hi e he
    have h := map_with_index_from_getElem? (synthesize_sentence_task synth) sentences 0 i hi
    have h2 : synthesize_sentence_task synth (0 + i) (sentences.get ⟨i, hi⟩)
        = .err i (sentences.get ⟨i, hi⟩) e := by
      simp only [Nat.zero_add, synthesize_sentence_task, he]
    rw [process_voice_generation, h, h2]

/-- Synthesizer for the C5 witness: job index 2 raises, all others succeed. -/
def c5_synth : Nat → String → Except String Nat :=
  fun i _ => if i = 2 then .error "boom" else .ok 1

/-- Witness for C5: a 5-job batch where job 2 faults returns 5 slots; slot 2
is the error record, slot 0 an untouched success record. -/
theorem batch_fault_isolation_witness :
    (process_voice_generation c5_synth ["a", "b", "c", "d", "e"]).length = 5
    ∧ (process_voice_generation c5_synth ["a", "b", "c", "d", "e"])[2]? =
        some (.err 2 "c" "boom")
    ∧ (process_voice_generation c5_synth ["a", "b", "c", "d", "e"])[0]? =
        some (.ok 0 "a" (audio_filename 0) 1) := by
  have h := batch_fault_isolation c5_synth ["a", "b", "c", "d", "e"]
  refine ⟨h.1, ?_, ?_⟩
  · exact h.2.2 2 (by decide) "boom" rfl
  · exact h.2.1 0 (by decide)

/-- Synthesizer for the C9 counterexample: every call succeeds. -/
def c9_synth : String → Except String Nat := fun _ => .ok 1

/-- C9 counterexample: for the input list ["hello", "", "world"] the batch
returns only 2 records, not one slot per input — the blank payload is
dropped entirely (`continue` appends nothing), no "skipped" outcome is
recorded at its index. -/
theorem batch_synthesize_no_slot_for_blank :
    (batch_synthesize c9_synth ["hello", "", "world"]).audioFiles.length = 2
    ∧ ¬ ((batch_synthesize c9_synth ["hello", "", "world"]).audioFiles.length = 3) := by
  decide

/-- Helper for C9: characterisation of the batch loop from any start index. -/
theorem batch_synthesize_go_spec (synth : String → Except String Nat) :
    ∀ (texts : List String) (i : Nat),
      (batch_synthesize_go synth i texts).callsMade
          = texts.filter (fun t => !(strip_blank t))
      ∧ (batch_synthesize_go synth i texts).audioFiles
          = ((map_with_index_from (fun j t => (j, t)) i texts).filter
              (fun p => !(strip_blank p.2))).map
              (fun p => synthesize_sentence_task (fun _ t => synth t) p.1 p.2) := by
  intro texts
  induction texts with
  | nil =>
    intro i
    exact ⟨rfl, rfl⟩
  | cons hd tl ih =>
    intro i
    by_cases hb : strip_blank hd
    · simpa [batch_synthesize_go, map_with_index_from, hb] using ih (i + 1)
    · have ih1 := (ih (i + 1)).1
      have ih2 := (ih (i + 1)).2
      cases hs : synth hd with
      | ok d =>
        constructor
        · simp [batch_synthesize_go, map_with_index_from, hb, hs, ih1]
        · simp only [batch_synthesize_go, map_with_index_from, hb, hs, ih2]
          simp [hb, synthesize_sentence_task, hs]
      | error e =>
        constructor
        · simp [batch_synthesize_go, map_with_index_from, hb, hs, ih1]
        · simp only [batch_synthesize_go, map_with_index_from, hb, hs, ih2]
          simp [hb, synthesize_sentence_task, hs]

/-- C9 amended: a blank (all-whitespace) payload triggers no synthesizer
call and produces no record at all; each non-blank input produces exactly one
record carrying its original index, and the records appear in input order —
so the result has one slot per non-blank input, not one per input. -/
theorem batch_synthesize_skips_blanks (synth : String → Except String Nat)
    (texts : List String) :
    (batch_synthesize synth texts).callsMade = texts.filter (fun t => !(strip_blank t))
    ∧ (batch_synthesize synth texts).audioFiles
        = ((map_with_index_from (fun j t => (j, t)) 0 texts).filter
            (fun p => !(strip_blank p.2))).map
            (fun p => synthesize_sentence_task (fun _ t => synth t) p.1 p.2) :=
  batch_synthesize_go_spec synth texts 0
